import Mathlib

/-!
Verification development for the Partizan 2022/23 season analysis pipeline.

The embedding follows the repository's notebooks:
* the data-validation notebook (season-level and per-game cross-checks of
  player sums against the team-aggregate row, and the "unassigned"
  rebound/turnover differences), and
* the consistency-analysis / modeling notebook (per-player summary
  statistics, the phase-dominant chronological order, lag features, and the
  regression harness).

Records are rows of the cleaned CSV; integer statistics are embedded as `Int`,
rational arithmetic (`ℚ`) replaces floating point, and pandas NaN results that
are subsequently dropped are embedded as `Option.none`.
-/

/-- A row of the cleaned dataset (`partizan_2022_cleaned.csv`).  Field names
follow the CSV columns; the `minutes` string column is omitted because every
computation in the analyzed notebooks uses the derived `total_seconds`. -/
structure Rec where
  game : String := ""
  round : Nat := 0
  phase : String := ""
  is_starter : Bool := false
  is_playing : Bool := false
  player : String := ""
  points : Int := 0
  two_points_made : Int := 0
  two_points_attempted : Int := 0
  three_points_made : Int := 0
  three_points_attempted : Int := 0
  free_throws_made : Int := 0
  free_throws_attempted : Int := 0
  offensive_rebounds : Int := 0
  defensive_rebounds : Int := 0
  total_rebounds : Int := 0
  assists : Int := 0
  steals : Int := 0
  turnovers : Int := 0
  blocks_favour : Int := 0
  blocks_against : Int := 0
  fouls_committed : Int := 0
  fouls_received : Int := 0
  valuation : Int := 0
  plus_minus : Int := 0
  total_seconds : Int := 0
deriving DecidableEq, Repr

/-- The sentinel `player` value identifying team-aggregate rows. -/
def teamName : String := "PARTIZAN MOZZART BET BELGRADE"

/-- `df[df['player'] == 'PARTIZAN MOZZART BET BELGRADE']`. -/
def teamOf (ds : List Rec) : List Rec := ds.filter (fun r => r.player == teamName)

/-- `df[df['player'] != 'PARTIZAN MOZZART BET BELGRADE']`. -/
def playersOf (ds : List Rec) : List Rec := ds.filter (fun r => !(r.player == teamName))

/-- Sum of one integer column over a list of rows. -/
def sumI (f : Rec → Int) (l : List Rec) : Int := (l.map f).sum

/-- `check_metrics` from the validation notebook: the seven exact-match
metrics are summed over all player rows and over all team rows of the whole
season, and a single combined boolean records whether all seven sums agree. -/
def checkMetrics (ds : List Rec) : Bool :=
  (sumI (fun r => r.total_seconds) (playersOf ds) == sumI (fun r => r.total_seconds) (teamOf ds)) &&
  (sumI (fun r => r.points) (playersOf ds) == sumI (fun r => r.points) (teamOf ds)) &&
  (sumI (fun r => r.assists) (playersOf ds) == sumI (fun r => r.assists) (teamOf ds)) &&
  (sumI (fun r => r.free_throws_made) (playersOf ds) == sumI (fun r => r.free_throws_made) (teamOf ds)) &&
  (sumI (fun r => r.free_throws_attempted) (playersOf ds) == sumI (fun r => r.free_throws_attempted) (teamOf ds)) &&
  (sumI (fun r => r.fouls_committed) (playersOf ds) == sumI (fun r => r.fouls_committed) (teamOf ds)) &&
  (sumI (fun r => r.fouls_received) (playersOf ds) == sumI (fun r => r.fouls_received) (teamOf ds))

/-- The single message printed by `check_metrics`: it never names an
individual metric, only a combined verdict. -/
def checkMetricsMsg (ds : List Rec) : String :=
  if checkMetrics ds then "All metrics that should match perfectly are matching perfectly"
  else "All metrics that should match perfectly are not matching perfectly"

/-- Accumulator recursion for `uniqueFirst`: `seen` holds values already
emitted. -/
def uniqueFirstAux (seen : List String) : List String → List String
  | [] => []
  | x :: xs => if seen.contains x then uniqueFirstAux seen xs
               else x :: uniqueFirstAux (x :: seen) xs

/-- First-occurrence deduplication, the semantics of `pandas.unique`. -/
def uniqueFirst (l : List String) : List String := uniqueFirstAux [] l

/-- `df['game'].unique()`: the games appearing in the dataset. -/
def gameList (ds : List Rec) : List String := uniqueFirst (ds.map (fun r => r.game))

/-- Rows of one game. -/
def gameRows (ds : List Rec) (g : String) : List Rec := ds.filter (fun r => r.game == g)

/-- `team_row` of the per-game loop: the team-aggregate rows of game `g`. -/
def pgTeam (ds : List Rec) (g : String) : List Rec :=
  (gameRows ds g).filter (fun r => r.player == teamName)

/-- `players_in_game` of the per-game loop. -/
def pgPlayers (ds : List Rec) (g : String) : List Rec :=
  (gameRows ds g).filter (fun r => !(r.player == teamName))

/-- The mismatch messages the per-game loop prints for one game: the loop
compares team sums against player sums for points, assists and
`total_seconds` only, and each mismatch names the metric and the game. -/
def pgMismatch (ds : List Rec) (g : String) : List (String × String) :=
  (if sumI (fun r => r.points) (pgTeam ds g) ≠ sumI (fun r => r.points) (pgPlayers ds g)
    then [("points", g)] else []) ++
  (if sumI (fun r => r.assists) (pgTeam ds g) ≠ sumI (fun r => r.assists) (pgPlayers ds g)
    then [("assists", g)] else []) ++
  (if sumI (fun r => r.total_seconds) (pgTeam ds g) ≠ sumI (fun r => r.total_seconds) (pgPlayers ds g)
    then [("seconds", g)] else [])

/-- All mismatch messages of the per-game loop (`all_metrics_match` is true
iff this list is empty). -/
def perGameMismatches (ds : List Rec) : List (String × String) :=
  (gameList ds).flatMap (pgMismatch ds)

/-- `rebound_difference`: unassigned team rebounds (team sum minus player sum). -/
def rebDiffI (ds : List Rec) : Int :=
  sumI (fun r => r.total_rebounds) (teamOf ds) - sumI (fun r => r.total_rebounds) (playersOf ds)

/-- `turnover_difference`: unassigned team turnovers. -/
def tovDiffI (ds : List Rec) : Int :=
  sumI (fun r => r.turnovers) (teamOf ds) - sumI (fun r => r.turnovers) (playersOf ds)

/-- `check_and_explain_metrics`: explanation messages for the reconcilable
metrics.  A mismatch prints an explanatory reason; nothing is ever raised and
the sign of the difference is not inspected. -/
def reconcileMessages (ds : List Rec) : List String :=
  (if sumI (fun r => r.total_rebounds) (playersOf ds) = sumI (fun r => r.total_rebounds) (teamOf ds) ∧
      sumI (fun r => r.steals) (playersOf ds) = sumI (fun r => r.steals) (teamOf ds) ∧
      sumI (fun r => r.turnovers) (playersOf ds) = sumI (fun r => r.turnovers) (teamOf ds)
    then ["All metrics are matching perfectly"] else []) ++
  (if sumI (fun r => r.total_rebounds) (playersOf ds) ≠ sumI (fun r => r.total_rebounds) (teamOf ds)
    then ["Total rebounds are not matching perfectly"] else []) ++
  (if sumI (fun r => r.steals) (playersOf ds) ≠ sumI (fun r => r.steals) (teamOf ds)
    then ["Total steals are not matching perfectly"] else []) ++
  (if sumI (fun r => r.turnovers) (playersOf ds) ≠ sumI (fun r => r.turnovers) (teamOf ds)
    then ["Total turnovers are not matching perfectly"] else [])

/-- Everything the validation notebook reports: the combined season verdict,
the per-game mismatch messages, the reconcilable-metric explanations, and the
two quantified unassigned differences. -/
structure ValidationReport where
  seasonExactOk : Bool
  perGameBad : List (String × String)
  reconcileMsgs : List String
  reboundDifference : Int
  turnoverDifference : Int
deriving DecidableEq, Repr

/-- Run the validation notebook on a dataset. -/
def runValidator (ds : List Rec) : ValidationReport :=
  { seasonExactOk := checkMetrics ds
    perGameBad := perGameMismatches ds
    reconcileMsgs := reconcileMessages ds
    reboundDifference := rebDiffI ds
    turnoverDifference := tovDiffI ds }

/-- A hard failure of the validator: an exact-match check reported a
mismatch (either the combined season check or a per-game message).  The
notebook raises no exception; mismatch reports are its failure signal. -/
def hardFailure (r : ValidationReport) : Bool :=
  !r.seasonExactOk || !r.perGameBad.isEmpty

/-- The unassigned counts the validator records, labeled as printed: only
rebounds and turnovers are quantified. -/
def recordedDiffs (r : ValidationReport) : List (String × Int) :=
  [("rebounds", r.reboundDifference), ("turnovers", r.turnoverDifference)]

/-- Two-game dataset whose free-throw sums disagree inside each game but
cancel across the season; points, assists and seconds agree everywhere. -/
def dsFt : List Rec :=
  [ { game := "PAR-AAA", round := 1, player := teamName, free_throws_made := 2,
      free_throws_attempted := 2 },
    { game := "PAR-AAA", round := 1, player := "P1", is_playing := true,
      free_throws_made := 3, free_throws_attempted := 3 },
    { game := "PAR-BBB", round := 2, player := teamName, free_throws_made := 3,
      free_throws_attempted := 3 },
    { game := "PAR-BBB", round := 2, player := "P1", is_playing := true,
      free_throws_made := 2, free_throws_attempted := 2 } ]

/-- One-game dataset where the player rebound sum exceeds the team total, so
the unassigned rebound count is negative; all exact-match metrics agree. -/
def dsNegReb : List Rec :=
  [ { game := "PAR-CCC", round := 1, player := teamName, total_rebounds := 3 },
    { game := "PAR-CCC", round := 1, player := "P1", is_playing := true, total_rebounds := 2 },
    { game := "PAR-CCC", round := 1, player := "P2", is_playing := true, total_rebounds := 2 } ]

/-- One game with two all-zero player rows and no team-aggregate row at all. -/
def dsNoAgg : List Rec :=
  [ { game := "AAA-PAR", round := 1, player := "P1", is_playing := true },
    { game := "AAA-PAR", round := 1, player := "P2", is_playing := true } ]

/-! ## Time-ordered feature builder and modeling harness -/

/-- Phase rank of the modeling notebook:
`map({'REGULAR SEASON': 0, 'PLAYOFFS': 1})`. -/
def phase_order (p : String) : Nat := if p = "PLAYOFFS" then 1 else 0

/-- Phase rank of the streakiness cells:
`map({'REGULAR SEASON': 1, 'PLAYOFFS': 2})`. -/
def phase_order_cons (p : String) : Nat := if p = "PLAYOFFS" then 2 else 1

/-- The totalOrder sort key `(phase_order, round)`. -/
def orderKey (r : Rec) : Nat × Nat := (phase_order r.phase, r.round)

/-- The strict totalOrder on records: phase rank dominates, round is the
secondary key (`sort_values(['player', 'phase_order', 'round'])` within one
player). -/
def recLT (a b : Rec) : Prop :=
  phase_order a.phase < phase_order b.phase ∨
    (phase_order a.phase = phase_order b.phase ∧ a.round < b.round)

/-- The strict order induced by the streakiness cells' 1/2 phase map. -/
def recLTCons (a b : Rec) : Prop :=
  phase_order_cons a.phase < phase_order_cons b.phase ∨
    (phase_order_cons a.phase = phase_order_cons b.phase ∧ a.round < b.round)

/-- Boolean non-strict comparator for the modeling notebook's sort. -/
def keyLE (a b : Rec) : Bool :=
  decide (phase_order a.phase < phase_order b.phase ∨
    (phase_order a.phase = phase_order b.phase ∧ a.round ≤ b.round))

/-- Boolean non-strict comparator for the streakiness cells' sort. -/
def keyLECons (a b : Rec) : Bool :=
  decide (phase_order_cons a.phase < phase_order_cons b.phase ∨
    (phase_order_cons a.phase = phase_order_cons b.phase ∧ a.round ≤ b.round))

/-- Insert a record into a list sorted by `le`. -/
def insertBy (le : Rec → Rec → Bool) (r : Rec) : List Rec → List Rec
  | [] => [r]
  | x :: xs => if le r x then r :: x :: xs else x :: insertBy le r xs

/-- Insertion sort by `le` (the embedding of `sort_values` on one player's
rows; keys are distinct per player so stability is irrelevant). -/
def sortRecs (le : Rec → Rec → Bool) : List Rec → List Rec
  | [] => []
  | x :: xs => insertBy le x (sortRecs le xs)

/-- `active_players`: player rows (team sentinel removed) with
`is_playing == True`. -/
def activeRows (ds : List Rec) : List Rec :=
  (ds.filter (fun r => !(r.player == teamName))).filter (fun r => r.is_playing)

/-- `active_players.groupby('player')['game'].nunique()` for one player. -/
def gamesOf (ds : List Rec) (p : String) : List String :=
  uniqueFirst (((activeRows ds).filter (fun r => r.player == p)).map (fun r => r.game))

/-- The activity-threshold filter of the modeling notebook:
`player_games[player_games >= 10]`. -/
def eligibleB (ds : List Rec) (p : String) : Bool := decide (10 ≤ (gamesOf ds p).length)

/-- `active_players[active_players['player'].isin(...)]`: active rows of
players meeting the threshold. -/
def eligibleActives (ds : List Rec) : List Rec :=
  (activeRows ds).filter (fun r => eligibleB ds r.player)

/-- The distinct eligible players, in first-occurrence order. -/
def playerList (ds : List Rec) : List String :=
  uniqueFirst ((eligibleActives ds).map (fun r => r.player))

/-- One eligible player's active rows in chronological (totalOrder) order. -/
def series (ds : List Rec) (p : String) : List Rec :=
  sortRecs keyLE ((eligibleActives ds).filter (fun r => r.player == p))

/-- The shifted points column `groupby('player')['points'].shift(1)` for one
player's sorted rows: `none` in front, then each row's points. -/
def prevCol (l : List Rec) : List (Option Int) := none :: l.map (fun r => some r.points)

/-- Each row paired with its `points_previous_game` value (`none` = NaN). -/
def withPrev (l : List Rec) : List (Rec × Option Int) := l.zip (prevCol l)

/-- `dropna(subset=['points_previous_game'])` on one player's rows: keep
exactly the rows whose lag value is defined, carrying that value. -/
def trainRows (l : List Rec) : List (Rec × Int) :=
  (withPrev l).filterMap (fun rp => rp.2.map (fun v => (rp.1, v)))

/-- The pooled global training table: every eligible player's rows with a
defined `points_previous_game` (the dataframe after the `dropna`). -/
def prepared (ds : List Rec) : List (Rec × Int) :=
  (playerList ds).flatMap (fun p => trainRows (series ds p))

/-- `train_player_model`'s `player_data`: the prepared table restricted to
one player. -/
def playerData (ds : List Rec) (p : String) : List (Rec × Int) :=
  (prepared ds).filter (fun rp => rp.1.player == p)

/-- `is_playoff` feature as a number. -/
def isPlayoffN (r : Rec) : ℚ := if r.phase = "PLAYOFFS" then 1 else 0

/-- `is_home` feature: 1 iff the game code starts with `PAR`. -/
def isHomeN (r : Rec) : ℚ := if r.game.startsWith "PAR" then 1 else 0

/-- The feature vector `[total_seconds, points_previous_game, is_playoff,
is_home]` of one prepared row. -/
def featuresOf (rp : Rec × Int) : List ℚ :=
  [(rp.1.total_seconds : ℚ), (rp.2 : ℚ), isPlayoffN rp.1, isHomeN rp.1]

/-- The regression target: the row's points. -/
def targetOf (rp : Rec × Int) : ℚ := (rp.1.points : ℚ)

/-- A fitted linear model: intercept and per-feature coefficients. -/
structure Lin where
  intercept : ℚ
  coefs : List ℚ
deriving DecidableEq, Repr

/-- Dot product of coefficient and feature lists. -/
def dotQ (a b : List ℚ) : ℚ := ((a.zip b).map (fun xy => xy.1 * xy.2)).sum

/-- `model.predict` for the linear model. -/
def predictLin (m : Lin) (rp : Rec × Int) : ℚ := m.intercept + dotQ m.coefs (featuresOf rp)

/-- Arithmetic mean of a rational list. -/
def meanQ (l : List ℚ) : ℚ := l.sum / l.length

/-- `mean_squared_error(y_true, y_pred)` (mean over the holdout size). -/
def mseq (preds acts : List ℚ) : ℚ :=
  (((preds.zip acts).map (fun pa => (pa.1 - pa.2) ^ 2)).sum) / acts.length

/-- `r2_score(y_true, y_pred)`: one minus residual over total sum of squares. -/
def r2q (preds acts : List ℚ) : ℚ :=
  1 - (((preds.zip acts).map (fun pa => (pa.2 - pa.1) ^ 2)).sum) /
        ((acts.map (fun a => (a - meanQ acts) ^ 2)).sum)

/-- The figures of merit of one fitted model, as the notebook prints them. -/
structure ModelResult where
  params : List ℚ
  r2 : ℚ
  mse : ℚ
deriving DecidableEq, Repr

/-- Build a `ModelResult` from parameters, holdout predictions and holdout
targets. -/
def mkResult (params : List ℚ) (preds acts : List ℚ) : ModelResult :=
  { params := params, r2 := r2q preds acts, mse := mseq preds acts }

/-- The metric figures the notebook prints for a model: R-squared and MSE,
in that order, and nothing else. -/
def printedMetrics (m : ModelResult) : List ℚ := [m.r2, m.mse]

/-- `train_player_model`: restrict the prepared table to one player; below
10 rows report insufficient data for that player alone, otherwise split,
fit and evaluate.  `split` abstracts `train_test_split` with its seed
(`random_state=42`) and `fitL` abstracts the least-squares fit. -/
def trainPlayerModel (split : Nat → List (Rec × Int) → List (Rec × Int) × List (Rec × Int))
    (fitL : List (Rec × Int) → Lin) (seed : Nat) (ds : List Rec) (p : String) :
    Except String ModelResult :=
  if (playerData ds p).length < 10 then
    Except.error ("Not enough data for " ++ p ++ " (only " ++
      toString (playerData ds p).length ++ " games).")
  else
    Except.ok (mkResult
      ((fitL (split seed (playerData ds p)).1).intercept ::
        (fitL (split seed (playerData ds p)).1).coefs)
      ((split seed (playerData ds p)).2.map (predictLin (fitL (split seed (playerData ds p)).1)))
      ((split seed (playerData ds p)).2.map targetOf))

/-- Everything one harness run produces: the two global models and one
result per requested player. -/
structure HarnessOutput where
  globalLin : ModelResult
  globalRF : ModelResult
  playerResults : List (String × Except String ModelResult)

/-- One full run of the modeling notebook: split the pooled table with the
fixed seed, fit and evaluate the linear model and the bagged ensemble
(`fitRF` abstracts the seeded random-forest fit, returning a predictor and
its feature importances), then fit one model per requested player. -/
def runHarness (split : Nat → List (Rec × Int) → List (Rec × Int) × List (Rec × Int))
    (fitL : List (Rec × Int) → Lin)
    (fitRF : List (Rec × Int) → ((Rec × Int) → ℚ) × List ℚ)
    (seed : Nat) (ds : List Rec) (roster : List String) : HarnessOutput :=
  let tt := split seed (prepared ds)
  let lm := fitL tt.1
  let acts := tt.2.map targetOf
  let rfp := fitRF tt.1
  { globalLin := mkResult (lm.intercept :: lm.coefs) (tt.2.map (predictLin lm)) acts
    globalRF := mkResult rfp.2 (tt.2.map rfp.1) acts
    playerResults := roster.map (fun q => (q, trainPlayerModel split fitL seed ds q)) }

/-! ## Per-player summary statistics (consistency cells) -/

/-- The specification's notion of one player's active records: rows of the
dataset belonging to `p` with `is_playing == True`. -/
def activeOf (ds : List Rec) (p : String) : List Rec :=
  ds.filter (fun r => r.player == p && r.is_playing)

/-- The code's grouping: the `active_players` table (team row removed,
`is_playing` filter) restricted to one player. -/
def groupRows (ds : List Rec) (p : String) : List Rec :=
  (activeRows ds).filter (fun r => r.player == p)

/-- Points of a row list as rationals. -/
def ptsQ (l : List Rec) : List ℚ := l.map (fun r => (r.points : ℚ))

/-- Valuations of a row list as rationals. -/
def valQ (l : List Rec) : List ℚ := l.map (fun r => (r.valuation : ℚ))

/-- Plus-minus of a row list as rationals. -/
def pmQ (l : List Rec) : List ℚ := l.map (fun r => (r.plus_minus : ℚ))

/-- Sample variance (the square of pandas `std`, which divides by n − 1). -/
def svarQ (l : List ℚ) : ℚ :=
  (l.map (fun x => (x - meanQ l) ^ 2)).sum / ((l.length : ℚ) - 1)

/-- Sample standard deviation (pandas `std`, `ddof=1`). -/
noncomputable def sdR (l : List ℚ) : ℝ := Real.sqrt ((svarQ l : ℚ) : ℝ)

/-- Centered cross sum `Σ (x - mean xs)(y - mean ys)` over aligned pairs. -/
def sXY (xs ys : List ℚ) : ℚ :=
  ((xs.zip ys).map (fun xy => (xy.1 - meanQ xs) * (xy.2 - meanQ ys))).sum

/-- Pearson correlation coefficient of two aligned rational series. -/
noncomputable def pearsonR (xs ys : List ℚ) : ℝ :=
  ((sXY xs ys : ℚ) : ℝ) / (Real.sqrt ((sXY xs xs : ℚ) : ℝ) * Real.sqrt ((sXY ys ys : ℚ) : ℝ))

/-- The `consistency_stats` table entry for one player: mean and sample
standard deviation of points, valuation and plus-minus over the player's
group of active rows, kept only for players with at least `min_games = 10`
active rows. -/
noncomputable def statsTable (ds : List Rec) (p : String) :
    Option ((ℚ × ℝ) × (ℚ × ℝ) × (ℚ × ℝ)) :=
  if 10 ≤ (groupRows ds p).length then
    some ((meanQ (ptsQ (groupRows ds p)), sdR (ptsQ (groupRows ds p))),
          (meanQ (valQ (groupRows ds p)), sdR (valQ (groupRows ds p))),
          (meanQ (pmQ (groupRows ds p)), sdR (pmQ (groupRows ds p))))
  else none

/-- One player's points series in the order used by the streakiness cells
(sorted by phase rank then round). -/
def pointsSeries (ds : List Rec) (p : String) : List ℚ :=
  ptsQ (sortRecs keyLECons (groupRows ds p))

/-- The `autocorr_points` entry for one player: pandas
`Series.autocorr(lag=1)` guarded by `len(x) >= 10`, followed by `dropna`.
The Pearson correlation pairs element `t` with element `t − 1` (`n − 1`
overlapping pairs); a constant sub-series makes pandas return NaN, which
the `dropna` removes, hence `none`. -/
noncomputable def autocorrFor (ds : List Rec) (p : String) : Option ℝ :=
  if 10 ≤ (pointsSeries ds p).length then
    if sXY ((pointsSeries ds p).drop 1) ((pointsSeries ds p).drop 1) = 0 ∨
       sXY (pointsSeries ds p).dropLast (pointsSeries ds p).dropLast = 0 then none
    else some (pearsonR ((pointsSeries ds p).drop 1) (pointsSeries ds p).dropLast)
  else none

/-! ## Concrete instantiations used by witnesses -/

/-- A trivial deterministic split (placeholder for `train_test_split`). -/
def tSplit : Nat → List (Rec × Int) → List (Rec × Int) × List (Rec × Int) :=
  fun _ l => (l, l)

/-- A trivial linear fit (placeholder for a least-squares solver). -/
def tLin : List (Rec × Int) → Lin := fun _ => { intercept := 0, coefs := [0, 0, 0, 0] }

/-- A trivial ensemble fit (placeholder for the seeded random forest). -/
def tRF : List (Rec × Int) → ((Rec × Int) → ℚ) × List ℚ :=
  fun _ => (fun _ => 0, [0, 0, 0, 0])

/-- A player with exactly 10 active games (one row per game), sitting exactly
at the activity threshold. -/
def ds10 : List Rec :=
  [ { game := "G1-PAR", round := 1, phase := "REGULAR SEASON", is_playing := true,
      player := "X", points := 5 },
    { game := "G2-PAR", round := 2, phase := "REGULAR SEASON", is_playing := true,
      player := "X", points := 7 },
    { game := "G3-PAR", round := 3, phase := "REGULAR SEASON", is_playing := true,
      player := "X", points := 2 },
    { game := "G4-PAR", round := 4, phase := "REGULAR SEASON", is_playing := true,
      player := "X", points := 11 },
    { game := "G5-PAR", round := 5, phase := "REGULAR SEASON", is_playing := true,
      player := "X", points := 0 },
    { game := "G6-PAR", round := 6, phase := "REGULAR SEASON", is_playing := true,
      player := "X", points := 4 },
    { game := "G7-PAR", round := 7, phase := "REGULAR SEASON", is_playing := true,
      player := "X", points := 9 },
    { game := "G8-PAR", round := 8, phase := "REGULAR SEASON", is_playing := true,
      player := "X", points := 3 },
    { game := "G9-PAR", round := 1, phase := "PLAYOFFS", is_playing := true,
      player := "X", points := 6 },
    { game := "G10-PAR", round := 2, phase := "PLAYOFFS", is_playing := true,
      player := "X", points := 8 } ]

/-! ## Helper lemmas -/

theorem mem_uniqueFirstAux : ∀ (l seen : List String) (x : String),
    x ∈ uniqueFirstAux seen l ↔ (x ∈ l ∧ x ∉ seen) := by
  intro l
  induction l with
  | nil => intro seen x; simp [uniqueFirstAux]
  | cons y ys ih =>
    intro seen x
    by_cases hy : seen.contains y = true
    · have hy' : y ∈ seen := by simpa [List.contains, List.elem_iff] using hy
      rw [uniqueFirstAux, if_pos hy, ih seen x]
      constructor
      · rintro ⟨hx, hs⟩
        exact ⟨List.mem_cons_of_mem _ hx, hs⟩
      · rintro ⟨hx, hs⟩
        rcases List.mem_cons.mp hx with rfl | hx
        · exact absurd hy' hs
        · exact ⟨hx, hs⟩
    · have hy' : y ∉ seen := by
        intro hmem
        exact hy (by simpa [List.contains, List.elem_iff] using hmem)
      rw [uniqueFirstAux, if_neg hy, List.mem_cons, ih (y :: seen) x]
      constructor
      · rintro (rfl | ⟨hx, hs⟩)
        · exact ⟨List.mem_cons_self _ _, hy'⟩
        · rw [List.mem_cons] at hs
          push_neg at hs
          exact ⟨List.mem_cons_of_mem _ hx, hs.2⟩
      · rintro ⟨hx, hs⟩
        by_cases hxy : x = y
        · exact Or.inl hxy
        · rcases List.mem_cons.mp hx with rfl | hx
          · exact Or.inl rfl
          · refine Or.inr ⟨hx, ?_⟩
            rw [List.mem_cons]
            push_neg
            exact ⟨hxy, hs⟩

theorem nodup_uniqueFirstAux : ∀ (l seen : List String), (uniqueFirstAux seen l).Nodup := by
  intro l
  induction l with
  | nil => intro seen; simp [uniqueFirstAux]
  | cons y ys ih =>
    intro seen
    by_cases hy : seen.contains y = true
    · rw [uniqueFirstAux, if_pos hy]; exact ih seen
    · rw [uniqueFirstAux, if_neg hy]
      refine List.nodup_cons.mpr ⟨?_, ih (y :: seen)⟩
      intro hmem
      exact ((mem_uniqueFirstAux ys (y :: seen) y).mp hmem).2 (List.mem_cons_self _ _)

theorem mem_uniqueFirst {x : String} {l : List String} : x ∈ uniqueFirst l ↔ x ∈ l := by
  simp [uniqueFirst, mem_uniqueFirstAux]

theorem nodup_uniqueFirst (l : List String) : (uniqueFirst l).Nodup := nodup_uniqueFirstAux l []

theorem ite_singleton_eq_nil {α : Type} (c : Prop) [Decidable c] (a : α) :
    ((if c then [a] else []) = ([] : List α)) ↔ ¬ c := by
  by_cases h : c <;> simp [h]

theorem pgMismatch_eq_nil (ds : List Rec) (g : String) : pgMismatch ds g = [] ↔
    (sumI (fun r => r.points) (pgTeam ds g) = sumI (fun r => r.points) (pgPlayers ds g) ∧
     sumI (fun r => r.assists) (pgTeam ds g) = sumI (fun r => r.assists) (pgPlayers ds g) ∧
     sumI (fun r => r.total_seconds) (pgTeam ds g) = sumI (fun r => r.total_seconds) (pgPlayers ds g)) := by
  unfold pgMismatch
  rw [List.append_eq_nil, List.append_eq_nil,
    ite_singleton_eq_nil, ite_singleton_eq_nil, ite_singleton_eq_nil]
  simp [not_ne_iff, and_assoc]

theorem checkMetrics_iff (ds : List Rec) : checkMetrics ds = true ↔
    (sumI (fun r => r.total_seconds) (playersOf ds) = sumI (fun r => r.total_seconds) (teamOf ds) ∧
     sumI (fun r => r.points) (playersOf ds) = sumI (fun r => r.points) (teamOf ds) ∧
     sumI (fun r => r.assists) (playersOf ds) = sumI (fun r => r.assists) (teamOf ds) ∧
     sumI (fun r => r.free_throws_made) (playersOf ds) = sumI (fun r => r.free_throws_made) (teamOf ds) ∧
     sumI (fun r => r.free_throws_attempted) (playersOf ds) = sumI (fun r => r.free_throws_attempted) (teamOf ds) ∧
     sumI (fun r => r.fouls_committed) (playersOf ds) = sumI (fun r => r.fouls_committed) (teamOf ds) ∧
     sumI (fun r => r.fouls_received) (playersOf ds) = sumI (fun r => r.fouls_received) (teamOf ds)) := by
  simp [checkMetrics, Bool.and_eq_true, beq_iff_eq, and_assoc]

theorem perGameMismatches_eq_nil (ds : List Rec) :
    perGameMismatches ds = [] ↔ ∀ g ∈ gameList ds, pgMismatch ds g = [] :=
  List.flatMap_eq_nil_iff

theorem length_insertBy (le : Rec → Rec → Bool) (r : Rec) :
    ∀ l : List Rec, (insertBy le r l).length = l.length + 1 := by
  intro l
  induction l with
  | nil => rfl
  | cons x xs ih =>
    rw [insertBy]
    split
    · rfl
    · simp [ih]

theorem length_sortRecs (le : Rec → Rec → Bool) :
    ∀ l : List Rec, (sortRecs le l).length = l.length := by
  intro l
  induction l with
  | nil => rfl
  | cons x xs ih => rw [sortRecs, length_insertBy, ih, List.length_cons]

theorem mem_insertBy (le : Rec → Rec → Bool) (r a : Rec) :
    ∀ l : List Rec, a ∈ insertBy le r l ↔ a = r ∨ a ∈ l := by
  intro l
  induction l with
  | nil => simp [insertBy]
  | cons x xs ih =>
    rw [insertBy]
    split
    · simp
    · rw [List.mem_cons, ih, List.mem_cons]
      tauto

theorem mem_sortRecs (le : Rec → Rec → Bool) (a : Rec) :
    ∀ l : List Rec, a ∈ sortRecs le l ↔ a ∈ l := by
  intro l
  induction l with
  | nil => simp [sortRecs]
  | cons x xs ih =>
    rw [sortRecs, mem_insertBy, ih, List.mem_cons]

theorem phase_order_cons_eq (p : String) : phase_order_cons p = phase_order p + 1 := by
  unfold phase_order phase_order_cons
  split <;> rfl

theorem keyLECons_eq : keyLECons = keyLE := by
  funext a b
  unfold keyLE keyLECons
  rw [phase_order_cons_eq, phase_order_cons_eq]
  rw [decide_eq_decide]
  omega

theorem sortRecs_cons_eq (l : List Rec) : sortRecs keyLECons l = sortRecs keyLE l := by
  rw [keyLECons_eq]

theorem length_withPrev (l : List Rec) : (withPrev l).length = l.length := by
  rw [withPrev, List.length_zip, prevCol]
  simp

theorem withPrev_zero {l : List Rec} {r : Rec} (h : l[0]? = some r) :
    (withPrev l)[0]? = some (r, none) := by
  rw [withPrev, List.getElem?_zip_eq_some]
  refine ⟨h, ?_⟩
  show (prevCol l)[0]? = some none
  rw [prevCol, List.getElem?_cons_zero]

theorem withPrev_succ {l : List Rec} {i : Nat} {r r' : Rec}
    (h : l[i]? = some r) (h' : l[i + 1]? = some r') :
    (withPrev l)[i + 1]? = some (r', some r.points) := by
  rw [withPrev, List.getElem?_zip_eq_some]
  refine ⟨h', ?_⟩
  show (prevCol l)[i + 1]? = some (some r.points)
  rw [prevCol, List.getElem?_cons_succ, List.getElem?_map, h]
  rfl

theorem mem_trainRows {l : List Rec} {r : Rec} {v : Int} :
    (r, v) ∈ trainRows l ↔ (r, some v) ∈ withPrev l := by
  unfold trainRows
  rw [List.mem_filterMap]
  constructor
  · rintro ⟨⟨a, o⟩, ha, hf⟩
    cases o with
    | none => simp at hf
    | some w =>
      simp only [Option.map_some'] at hf
      obtain ⟨rfl, rfl⟩ := Prod.mk.injEq .. ▸ (Option.some.injEq .. ▸ hf :)
      exact ha
  · intro h
    exact ⟨(r, some v), h, rfl⟩

theorem filterMap_zip_some : ∀ (xs : List Rec) (ys : List Int),
    ((xs.zip (ys.map some)).filterMap (fun rp => rp.2.map (fun v => (rp.1, v)))) = xs.zip ys := by
  intro xs
  induction xs with
  | nil => intro ys; simp
  | cons x xs ih =>
    intro ys
    cases ys with
    | nil => simp
    | cons y ys => simp [List.zip_cons_cons, List.filterMap_cons, ih]

theorem trainRows_cons (x : Rec) (xs : List Rec) :
    trainRows (x :: xs) = xs.zip (x.points :: xs.map (fun r => r.points)) := by
  unfold trainRows withPrev prevCol
  rw [List.map_cons, List.zip_cons_cons]
  rw [List.filterMap_cons]
  have hmap : (xs.map fun r => some r.points) = (xs.map fun r => r.points).map some := by
    rw [List.map_map]
    rfl
  simp only [Option.map_none']
  rw [show (some x.points :: xs.map fun r => some r.points) =
      ((x.points :: xs.map fun r => r.points).map some) by rw [List.map_cons, hmap]]
  exact filterMap_zip_some xs (x.points :: xs.map fun r => r.points)

theorem length_trainRows (l : List Rec) : (trainRows l).length = l.length - 1 := by
  cases l with
  | nil => rfl
  | cons x xs =>
    rw [trainRows_cons, List.length_zip]
    simp

theorem mem_prepared {ds : List Rec} {x : Rec × Int} :
    x ∈ prepared ds ↔ ∃ q ∈ playerList ds, x ∈ trainRows (series ds q) :=
  List.mem_flatMap

theorem player_of_mem_series {ds : List Rec} {q : String} {r : Rec}
    (h : r ∈ series ds q) : r.player = q := by
  unfold series at h
  rw [mem_sortRecs] at h
  simpa [beq_iff_eq] using List.of_mem_filter h

theorem player_of_mem_trainRows {ds : List Rec} {q : String} (rp : Rec × Int)
    (h : rp ∈ trainRows (series ds q)) : rp.1.player = q := by
  obtain ⟨r, v⟩ := rp
  rw [mem_trainRows] at h
  unfold withPrev at h
  exact player_of_mem_series (List.of_mem_zip h).1

theorem flatMap_ite_eq {p : String} : ∀ (l : List String), l.Nodup → p ∈ l →
    ∀ T : List (Rec × Int), (l.flatMap fun q => if q = p then T else []) = T := by
  intro l
  induction l with
  | nil => intro _ hp; exact absurd hp (List.not_mem_nil p)
  | cons q rest ih =>
    intro hnd hp T
    rcases List.mem_cons.mp hp with rfl | hp'
    · rw [List.flatMap_cons, if_pos rfl]
      have hrest : (rest.flatMap fun q' => if q' = p then T else []) = [] := by
        rw [List.flatMap_eq_nil_iff]
        intro x hx
        rw [if_neg]
        intro hxp
        exact (List.nodup_cons.mp hnd).1 (hxp ▸ hx)
      rw [hrest, List.append_nil]
    · have hqp : ¬ q = p := by
        intro hq
        exact (List.nodup_cons.mp hnd).1 (hq ▸ hp')
      rw [List.flatMap_cons, if_neg hqp, ih (List.nodup_cons.mp hnd).2 hp' T, List.nil_append]

theorem playerData_eq {ds : List Rec} {p : String} (hp : p ∈ playerList ds) :
    playerData ds p = trainRows (series ds p) := by
  unfold playerData prepared
  rw [List.filter_flatMap]
  rw [List.flatMap_congr (g := fun q => if q = p then trainRows (series ds p) else [])]
  · exact flatMap_ite_eq (playerList ds) (nodup_uniqueFirst _) hp _
  · intro q hq
    by_cases hqp : q = p
    · subst hqp
      rw [if_pos rfl, List.filter_eq_self]
      intro a ha
      simpa [beq_iff_eq] using player_of_mem_trainRows a ha
    · rw [if_neg hqp, List.filter_eq_nil_iff]
      intro a ha
      have := player_of_mem_trainRows a ha
      simp [beq_iff_eq, this, hqp]

theorem eligibleActives_filter_player {ds : List Rec} {p : String}
    (h : eligibleB ds p = true) :
    (eligibleActives ds).filter (fun r => r.player == p) =
      (activeRows ds).filter (fun r => r.player == p) := by
  unfold eligibleActives
  rw [List.filter_filter]
  apply List.filter_congr
  intro r _
  by_cases hpl : r.player = p
  · rw [hpl, h]
    simp
  · simp [beq_iff_eq, hpl]

theorem groupRows_eq_activeOf {ds : List Rec} {p : String} (h : ¬ p = teamName) :
    groupRows ds p = activeOf ds p := by
  unfold groupRows activeRows activeOf
  rw [List.filter_filter, List.filter_filter]
  apply List.filter_congr
  intro r _
  by_cases hpl : r.player = p
  · have ht : ¬ r.player = teamName := by rw [hpl]; exact h
    simp only [beq_iff_eq, hpl, ht]
    simp [h]
  · simp [beq_iff_eq, hpl]

/-! ## Claim theorems: Consistency Validator -/

/-- C1 counterexample.  The claim states that the validator checks the
exact-match equality per game for every exact-match metric and hard-fails on
a violation.  On `dsFt` the validator reports no failure at all even though
the free-throws-made sums disagree inside game `PAR-AAA`: the per-game loop
checks only points, assists and seconds, and the season-level sums of the
free-throw mismatches cancel. -/
theorem c1_claim_counterexample :
    hardFailure (runValidator dsFt) = false ∧
    "PAR-AAA" ∈ gameList dsFt ∧
    sumI (fun r => r.free_throws_made) (pgPlayers dsFt "PAR-AAA") ≠
      sumI (fun r => r.free_throws_made) (pgTeam dsFt "PAR-AAA") := by
  refine ⟨by decide, by decide, by decide⟩

/-- C1 (amended).  At season granularity the validator checks all seven
exact-match metrics (points, assists, ftMade, ftAttempted, foulsCommitted,
foulsReceived, secondsPlayed), reporting one combined pass/fail; at per-game
granularity it checks only points, assists and secondsPlayed, and a game
passes exactly when those three sums agree for it. -/
theorem c1_amended_exact_checks : ∀ ds : List Rec,
    (checkMetrics ds = true ↔
      (sumI (fun r => r.total_seconds) (playersOf ds) = sumI (fun r => r.total_seconds) (teamOf ds) ∧
       sumI (fun r => r.points) (playersOf ds) = sumI (fun r => r.points) (teamOf ds) ∧
       sumI (fun r => r.assists) (playersOf ds) = sumI (fun r => r.assists) (teamOf ds) ∧
       sumI (fun r => r.free_throws_made) (playersOf ds) = sumI (fun r => r.free_throws_made) (teamOf ds) ∧
       sumI (fun r => r.free_throws_attempted) (playersOf ds) = sumI (fun r => r.free_throws_attempted) (teamOf ds) ∧
       sumI (fun r => r.fouls_committed) (playersOf ds) = sumI (fun r => r.fouls_committed) (teamOf ds) ∧
       sumI (fun r => r.fouls_received) (playersOf ds) = sumI (fun r => r.fouls_received) (teamOf ds))) ∧
    (perGameMismatches ds = [] ↔ ∀ g ∈ gameList ds,
      (sumI (fun r => r.points) (pgTeam ds g) = sumI (fun r => r.points) (pgPlayers ds g) ∧
       sumI (fun r => r.assists) (pgTeam ds g) = sumI (fun r => r.assists) (pgPlayers ds g) ∧
       sumI (fun r => r.total_seconds) (pgTeam ds g) = sumI (fun r => r.total_seconds) (pgPlayers ds g))) := by
  intro ds
  refine ⟨checkMetrics_iff ds, ?_⟩
  rw [perGameMismatches_eq_nil]
  constructor
  · intro h g hg
    exact (pgMismatch_eq_nil ds g).mp (h g hg)
  · intro h g hg
    exact (pgMismatch_eq_nil ds g).mpr (h g hg)

/-- C1 amended witness: the two-game free-throw dataset passes the combined
season check. -/
theorem c1_amended_exact_checks_witness : checkMetrics dsFt = true :=
  (c1_amended_exact_checks dsFt).1.mpr (by decide)

/-- C2 counterexample.  The claim states that the validator hard-fails
whenever an unassigned (reconcilable) count is negative, and that it records
the unassigned count of every reconcilable metric including steals.  On
`dsNegReb` the unassigned rebound count is −1, yet no failure is reported
(the explanation message is the same as for a positive difference), and the
recorded unassigned counts never include steals. -/
theorem c2_claim_counterexample :
    rebDiffI dsNegReb = -1 ∧
    hardFailure (runValidator dsNegReb) = false ∧
    (∀ d ∈ recordedDiffs (runValidator dsNegReb), d.1 ≠ "steals") ∧
    "Total rebounds are not matching perfectly" ∈ (runValidator dsNegReb).reconcileMsgs := by
  refine ⟨by decide, by decide, by decide, by decide⟩

/-- C2 (amended).  The validator computes unassigned = aggregate sum −
player sum for totalRebounds and turnovers only and records both in the
report; steals are only equality-checked with an explanation message.  A
reconcilable mismatch never causes a hard failure regardless of sign: a hard
failure is equivalent to an exact-match check failing. -/
theorem c2_amended_reconcilable : ∀ ds : List Rec,
    (runValidator ds).reboundDifference =
      sumI (fun r => r.total_rebounds) (teamOf ds) - sumI (fun r => r.total_rebounds) (playersOf ds) ∧
    (runValidator ds).turnoverDifference =
      sumI (fun r => r.turnovers) (teamOf ds) - sumI (fun r => r.turnovers) (playersOf ds) ∧
    recordedDiffs (runValidator ds) = [("rebounds", rebDiffI ds), ("turnovers", tovDiffI ds)] ∧
    (hardFailure (runValidator ds) = true ↔
      (checkMetrics ds = false ∨ perGameMismatches ds ≠ [])) ∧
    (sumI (fun r => r.total_rebounds) (playersOf ds) ≠ sumI (fun r => r.total_rebounds) (teamOf ds) →
      "Total rebounds are not matching perfectly" ∈ reconcileMessages ds) := by
  intro ds
  refine ⟨rfl, rfl, rfl, ?_, ?_⟩
  · simp [hardFailure, runValidator, Bool.or_eq_true, Bool.not_eq_true', List.isEmpty_iff]
  · intro hne
    simp only [reconcileMessages, List.mem_append]
    refine Or.inl (Or.inl (Or.inr ?_))
    rw [if_pos hne]
    exact List.mem_singleton.mpr rfl

/-- C2 amended witness: on the negative-rebound dataset the explanation
message is recorded. -/
theorem c2_amended_reconcilable_witness :
    "Total rebounds are not matching perfectly" ∈ reconcileMessages dsNegReb :=
  (c2_amended_reconcilable dsNegReb).2.2.2.2 (by decide)

/-- C8 counterexample.  The claim states that a gameId with zero (or more
than one) team-aggregate rows makes the validator fail with a
DataIntegrityError naming the game.  `dsNoAgg` has a game with zero
aggregate rows, yet the validator reports no failure of any kind. -/
theorem c8_claim_counterexample :
    (pgTeam dsNoAgg "AAA-PAR").length = 0 ∧
    "AAA-PAR" ∈ gameList dsNoAgg ∧
    hardFailure (runValidator dsNoAgg) = false := by
  refine ⟨by decide, by decide, by decide⟩

/-- C8 (amended).  The validator performs no aggregate-row cardinality check
and raises no DataIntegrityError; a missing aggregate row is noticed only
indirectly through the per-game sum comparisons: with zero aggregate rows,
the game's checks pass exactly when the player sums of points, assists and
secondsPlayed are all zero. -/
theorem c8_amended_no_cardinality_check : ∀ (ds : List Rec) (g : String),
    g ∈ gameList ds → pgTeam ds g = [] →
    (pgMismatch ds g = [] ↔
      (sumI (fun r => r.points) (pgPlayers ds g) = 0 ∧
       sumI (fun r => r.assists) (pgPlayers ds g) = 0 ∧
       sumI (fun r => r.total_seconds) (pgPlayers ds g) = 0)) := by
  intro ds g _ hteam
  rw [pgMismatch_eq_nil, hteam]
  simp [sumI, eq_comm]

/-- C8 amended witness: the aggregate-less all-zero game produces no
per-game mismatch message. -/
theorem c8_amended_no_cardinality_check_witness : pgMismatch dsNoAgg "AAA-PAR" = [] :=
  (c8_amended_no_cardinality_check dsNoAgg "AAA-PAR" (by decide) (by decide)).mpr (by decide)

/-! ## Claim theorems: totalOrder and feature builder -/

/-- C3.  totalOrder is phase-dominant (every RegularSeason record precedes
every Playoffs record regardless of rounds), orders same-phase records by
ascending round, and is a strict total order (irreflexive, transitive, and
total on records with distinct keys, which is what distinguishes one
player's records); the 1/2 phase map of the streakiness cells induces the
same order as the 0/1 map. -/
theorem c3_totalOrder_phase_dominant :
    (∀ a b : Rec, a.phase = "REGULAR SEASON" → b.phase = "PLAYOFFS" → recLT a b) ∧
    (∀ a b : Rec, a.phase = b.phase → (recLT a b ↔ a.round < b.round)) ∧
    (∀ a : Rec, ¬ recLT a a) ∧
    (∀ a b c : Rec, recLT a b → recLT b c → recLT a c) ∧
    (∀ a b : Rec, orderKey a ≠ orderKey b → recLT a b ∨ recLT b a) ∧
    (∀ a b : Rec, recLT a b ↔ recLTCons a b) := by
  refine ⟨?_, ?_, ?_, ?_, ?_, ?_⟩
  · intro a b ha hb
    have h1 : phase_order "REGULAR SEASON" = 0 := rfl
    have h2 : phase_order "PLAYOFFS" = 1 := rfl
    unfold recLT
    rw [ha, hb, h1, h2]
    exact Or.inl Nat.zero_lt_one
  · intro a b h
    unfold recLT
    rw [h]
    omega
  · intro a
    unfold recLT
    omega
  · intro a b c
    unfold recLT
    omega
  · intro a b h
    simp only [ne_eq, orderKey, Prod.mk.injEq, not_and] at h
    unfold recLT
    by_cases hp : phase_order a.phase = phase_order b.phase
    · have hr := h hp
      omega
    · omega
  · intro a b
    unfold recLT recLTCons
    rw [phase_order_cons_eq, phase_order_cons_eq]
    omega

/-- C3 witness: a round-5 regular-season record precedes a round-1 playoff
record. -/
theorem c3_totalOrder_phase_dominant_witness :
    recLT ({ phase := "REGULAR SEASON", round := 5 } : Rec)
      ({ phase := "PLAYOFFS", round := 1 } : Rec) :=
  c3_totalOrder_phase_dominant.1 _ _ rfl rfl

/-- C4.  In a player's totalOrder-sorted series, the lag column pairs the
first record with `none` and every later record with the points of its
immediate predecessor; the training rows are exactly the records whose lag
value is defined (no default is ever substituted), and the pooled training
set is their union over the eligible players. -/
theorem c4_previous_game_points : ∀ (ds : List Rec) (p : String),
    ((withPrev (series ds p)).length = (series ds p).length) ∧
    (∀ r : Rec, (series ds p)[0]? = some r → (withPrev (series ds p))[0]? = some (r, none)) ∧
    (∀ (i : Nat) (r r' : Rec), (series ds p)[i]? = some r → (series ds p)[i + 1]? = some r' →
      (withPrev (series ds p))[i + 1]? = some (r', some r.points)) ∧
    (∀ (r : Rec) (v : Int), (r, v) ∈ trainRows (series ds p) ↔ (r, some v) ∈ withPrev (series ds p)) ∧
    (∀ x : Rec × Int, x ∈ prepared ds ↔ ∃ q ∈ playerList ds, x ∈ trainRows (series ds q)) := by
  intro ds p
  exact ⟨length_withPrev _, fun r h => withPrev_zero h, fun i r r' h h' => withPrev_succ h h',
    fun r v => mem_trainRows, fun x => mem_prepared⟩

/-- C4 witness: the chronologically first record of the threshold player's
series carries `none` as previousGamePoints. -/
theorem c4_previous_game_points_witness :
    (withPrev (series ds10 "X"))[0]? =
      some ({ game := "G1-PAR", round := 1, phase := "REGULAR SEASON", is_playing := true,
              player := "X", points := 5 }, none) :=
  (c4_previous_game_points ds10 "X").2.1 _ (by decide)

/-- C5.  For a non-sentinel player, the grouped rows are exactly that
player's active records; for players at or above the threshold the reported
statistics are the mean and the n−1 sample standard deviation of points,
valuation and plus-minus over exactly those records; below the threshold the
statistics row and the autocorrelation are absent (never 0); and any
reported autocorrelation value is the Pearson correlation of the
totalOrder-sorted points series with its one-step shift over the
overlapping pairs. -/
theorem c5_summary_stats : ∀ (ds : List Rec) (p : String), ¬ p = teamName →
    (groupRows ds p = activeOf ds p) ∧
    (10 ≤ (activeOf ds p).length →
      statsTable ds p = some
        ((meanQ (ptsQ (activeOf ds p)), Real.sqrt ((svarQ (ptsQ (activeOf ds p)) : ℝ))),
         (meanQ (valQ (activeOf ds p)), Real.sqrt ((svarQ (valQ (activeOf ds p)) : ℝ))),
         (meanQ (pmQ (activeOf ds p)), Real.sqrt ((svarQ (pmQ (activeOf ds p)) : ℝ))))) ∧
    ((activeOf ds p).length < 10 → statsTable ds p = none ∧ autocorrFor ds p = none) ∧
    (∀ x : ℝ, autocorrFor ds p = some x →
      10 ≤ (activeOf ds p).length ∧
      x = pearsonR ((ptsQ (sortRecs keyLE (activeOf ds p))).drop 1)
            ((ptsQ (sortRecs keyLE (activeOf ds p))).dropLast)) := by
  intro ds p hp
  have hg : groupRows ds p = activeOf ds p := groupRows_eq_activeOf hp
  have hl : (pointsSeries ds p).length = (activeOf ds p).length := by
    unfold pointsSeries ptsQ
    rw [List.length_map, length_sortRecs, hg]
  have hser : pointsSeries ds p = ptsQ (sortRecs keyLE (activeOf ds p)) := by
    unfold pointsSeries
    rw [sortRecs_cons_eq, hg]
  refine ⟨hg, ?_, ?_, ?_⟩
  · intro hlen
    unfold statsTable
    rw [hg, if_pos hlen]
    rfl
  · intro hlen
    refine ⟨?_, ?_⟩
    · unfold statsTable
      rw [hg, if_neg (by omega)]
    · unfold autocorrFor
      rw [if_neg (by omega)]
  · intro x hx
    unfold autocorrFor at hx
    by_cases h10 : 10 ≤ (pointsSeries ds p).length
    · rw [if_pos h10] at hx
      by_cases hz : sXY ((pointsSeries ds p).drop 1) ((pointsSeries ds p).drop 1) = 0 ∨
          sXY (pointsSeries ds p).dropLast (pointsSeries ds p).dropLast = 0
      · rw [if_pos hz] at hx
        exact absurd hx (by simp)
      · rw [if_neg hz] at hx
        have hval := Option.some.inj hx
        refine ⟨by omega, ?_⟩
        rw [← hval, hser]
    · rw [if_neg h10] at hx
      exact absurd hx (by simp)

/-- C5 witness: a player with no active records has both the statistics row
and the autocorrelation absent. -/
theorem c5_summary_stats_witness :
    statsTable ([] : List Rec) "X" = none ∧ autocorrFor ([] : List Rec) "X" = none :=
  (c5_summary_stats [] "X" (by decide)).2.2.1 (by decide)

/-! ## Claim theorems: Regression Modeling Harness -/

/-- C6.  The harness is a pure function of the dataset, the seed and the
(seed-driven) split/fit procedures: two runs on identical inputs produce
identical partitions, coefficients, R-squared and MSE for the global linear
model, the bagged ensemble and every per-player model. -/
theorem c6_determinism :
    ∀ (split : Nat → List (Rec × Int) → List (Rec × Int) × List (Rec × Int))
      (fitL : List (Rec × Int) → Lin) (fitRF : List (Rec × Int) → ((Rec × Int) → ℚ) × List ℚ)
      (seed : Nat) (ds : List Rec) (roster : List String) (r1 r2 : HarnessOutput),
    r1 = runHarness split fitL fitRF seed ds roster →
    r2 = runHarness split fitL fitRF seed ds roster → r1 = r2 := by
  intro _ _ _ _ _ _ r1 r2 h1 h2
  rw [h1, h2]

/-- C6 witness: two runs on the threshold dataset coincide. -/
theorem c6_determinism_witness :
    runHarness tSplit tLin tRF 42 ds10 ["X"] = runHarness tSplit tLin tRF 42 ds10 ["X"] :=
  c6_determinism tSplit tLin tRF 42 ds10 ["X"] _ _ rfl rfl

/-- C7.  A player whose restricted data has fewer than 10 rows gets an
insufficient-data error naming that player; every other requested player's
result still appears in the output, computed exactly as it would be in
isolation, and both global models are unchanged whether or not the failing
player is on the roster. -/
theorem c7_insufficient_data_scoped :
    ∀ (split : Nat → List (Rec × Int) → List (Rec × Int) × List (Rec × Int))
      (fitL : List (Rec × Int) → Lin) (fitRF : List (Rec × Int) → ((Rec × Int) → ℚ) × List ℚ)
      (seed : Nat) (ds : List Rec) (roster : List String) (p : String),
    (playerData ds p).length < 10 →
    trainPlayerModel split fitL seed ds p = Except.error
      ("Not enough data for " ++ p ++ " (only " ++
        toString (playerData ds p).length ++ " games).") ∧
    (∀ q, q ∈ roster → (q, trainPlayerModel split fitL seed ds q) ∈
      (runHarness split fitL fitRF seed ds roster).playerResults) ∧
    (runHarness split fitL fitRF seed ds roster).globalLin =
      (runHarness split fitL fitRF seed ds (roster.filter (fun q => !(q == p)))).globalLin ∧
    (runHarness split fitL fitRF seed ds roster).globalRF =
      (runHarness split fitL fitRF seed ds (roster.filter (fun q => !(q == p)))).globalRF := by
  intro split fitL fitRF seed ds roster p h
  refine ⟨?_, ?_, rfl, rfl⟩
  · unfold trainPlayerModel
    rw [if_pos h]
  · intro q hq
    show (q, trainPlayerModel split fitL seed ds q) ∈
      roster.map (fun q => (q, trainPlayerModel split fitL seed ds q))
    exact List.mem_map_of_mem _ hq

/-- C7 witness: on the empty dataset the requested player B fails alone with
the scoped message. -/
theorem c7_insufficient_data_scoped_witness :
    trainPlayerModel tSplit tLin 42 [] "B" = Except.error
      ("Not enough data for " ++ "B" ++ " (only " ++
        toString ((playerData ([] : List Rec) "B").length) ++ " games).") :=
  (c7_insufficient_data_scoped tSplit tLin tRF 42 [] ["A"] "B" (by decide)).1

/-- C9 counterexample.  The claim states that RMSE = sqrt(MSE) is derived
and reported alongside R-squared and MSE for every ModelResult.  On a
concrete evaluation the reported figures are exactly [−4, 5] (R-squared and
MSE), and sqrt(MSE) = sqrt 5 is not among them: the code never derives an
RMSE. -/
theorem c9_claim_counterexample :
    printedMetrics (mkResult [] [0, 0] [1, 3]) = [-4, 5] ∧
    (∀ x ∈ printedMetrics (mkResult [] [0, 0] [1, 3]),
      (x : ℝ) ≠ Real.sqrt (((mkResult [] [0, 0] [1, 3]).mse : ℚ) : ℝ)) := by
  have h1 : printedMetrics (mkResult [] [0, 0] [1, 3]) = [-4, 5] := by
    norm_num [printedMetrics, mkResult, r2q, mseq, meanQ]
  have h2 : (mkResult [] [0, 0] ([1, 3] : List ℚ)).mse = 5 := by
    norm_num [mkResult, mseq]
  refine ⟨h1, ?_⟩
  intro x hx
  rw [h1] at hx
  rw [h2]
  have h5 : (((5 : ℚ)) : ℝ) = (5 : ℝ) := by norm_num
  rw [h5]
  rcases List.mem_cons.mp hx with rfl | hx
  · intro heq
    have hnn := Real.sqrt_nonneg (5 : ℝ)
    rw [← heq] at hnn
    norm_num at hnn
  · rcases List.mem_cons.mp hx with rfl | hx
    · intro heq
      have hs : Real.sqrt (5 : ℝ) ^ 2 = 5 := Real.sq_sqrt (by norm_num)
      rw [← heq] at hs
      norm_num at hs
    · exact absurd hx (List.not_mem_nil x)

/-- C9 (amended).  Every ModelResult the harness produces reports exactly
two figures of merit, R-squared and MSE, each computed by the sklearn
formulas on the holdout; no RMSE is derived by the code. -/
theorem c9_amended_metrics :
    ∀ (split : Nat → List (Rec × Int) → List (Rec × Int) × List (Rec × Int))
      (fitL : List (Rec × Int) → Lin) (fitRF : List (Rec × Int) → ((Rec × Int) → ℚ) × List ℚ)
      (seed : Nat) (ds : List Rec) (roster : List String),
    printedMetrics (runHarness split fitL fitRF seed ds roster).globalLin =
      [r2q ((split seed (prepared ds)).2.map (predictLin (fitL (split seed (prepared ds)).1)))
         ((split seed (prepared ds)).2.map targetOf),
       mseq ((split seed (prepared ds)).2.map (predictLin (fitL (split seed (prepared ds)).1)))
         ((split seed (prepared ds)).2.map targetOf)] ∧
    printedMetrics (runHarness split fitL fitRF seed ds roster).globalRF =
      [r2q ((split seed (prepared ds)).2.map (fitRF (split seed (prepared ds)).1).1)
         ((split seed (prepared ds)).2.map targetOf),
       mseq ((split seed (prepared ds)).2.map (fitRF (split seed (prepared ds)).1).1)
         ((split seed (prepared ds)).2.map targetOf)] ∧
    (∀ (p : String) (m : ModelResult), trainPlayerModel split fitL seed ds p = Except.ok m →
      printedMetrics m =
        [r2q ((split seed (playerData ds p)).2.map
            (predictLin (fitL (split seed (playerData ds p)).1)))
           ((split seed (playerData ds p)).2.map targetOf),
         mseq ((split seed (playerData ds p)).2.map
            (predictLin (fitL (split seed (playerData ds p)).1)))
           ((split seed (playerData ds p)).2.map targetOf)]) := by
  intro split fitL fitRF seed ds roster
  refine ⟨rfl, rfl, ?_⟩
  intro p m hm
  unfold trainPlayerModel at hm
  by_cases h : (playerData ds p).length < 10
  · rw [if_pos h] at hm
    exact absurd hm (by simp)
  · rw [if_neg h] at hm
    have hv := Except.ok.inj hm
    rw [← hv]
    rfl

/-- C9 amended witness: the global linear figures on a trivial run. -/
theorem c9_amended_metrics_witness :
    printedMetrics (runHarness tSplit tLin tRF 42 [] []).globalLin =
      [r2q ((tSplit 42 (prepared [])).2.map (predictLin (tLin (tSplit 42 (prepared [])).1)))
         ((tSplit 42 (prepared [])).2.map targetOf),
       mseq ((tSplit 42 (prepared [])).2.map (predictLin (tLin (tSplit 42 (prepared [])).1)))
         ((tSplit 42 (prepared [])).2.map targetOf)] :=
  (c9_amended_metrics tSplit tLin tRF 42 [] []).1

/-- C10.  A player with exactly 10 active games (one row per game) passes
the activity-threshold filter and enters the pooled table, but the
chronologically first record is dropped for lacking previousGamePoints, so
the per-player row count compared against the threshold is 9 and the
dedicated-model request takes the insufficient-data branch. -/
theorem c10_threshold_insufficient :
    ∀ (split : Nat → List (Rec × Int) → List (Rec × Int) × List (Rec × Int))
      (fitL : List (Rec × Int) → Lin) (seed : Nat) (ds : List Rec) (p : String),
    (gamesOf ds p).length = 10 →
    ((activeRows ds).filter (fun r => r.player == p)).length = 10 →
    eligibleB ds p = true ∧
    (playerData ds p).length = 9 ∧
    trainPlayerModel split fitL seed ds p = Except.error
      ("Not enough data for " ++ p ++ " (only " ++ toString (9 : Nat) ++ " games).") := by
  intro split fitL seed ds p hn hr
  have helig : eligibleB ds p = true := by
    unfold eligibleB
    rw [hn]
    rfl
  have hpl : p ∈ playerList ds := by
    have hpos : 0 < ((activeRows ds).filter (fun r => r.player == p)).length := by omega
    obtain ⟨r, hrmem⟩ := List.exists_mem_of_length_pos hpos
    have hr1 : r ∈ activeRows ds := List.mem_of_mem_filter hrmem
    have hr2 : r.player = p := by simpa [beq_iff_eq] using List.of_mem_filter hrmem
    unfold playerList
    rw [mem_uniqueFirst, List.mem_map]
    refine ⟨r, ?_, hr2⟩
    unfold eligibleActives
    rw [List.mem_filter]
    exact ⟨hr1, by rw [hr2]; exact helig⟩
  have hdata : playerData ds p = trainRows (series ds p) := playerData_eq hpl
  have hserlen : (series ds p).length = 10 := by
    unfold series
    rw [length_sortRecs, eligibleActives_filter_player helig, hr]
  have hlen : (playerData ds p).length = 9 := by
    rw [hdata, length_trainRows, hserlen]
  refine ⟨helig, hlen, ?_⟩
  unfold trainPlayerModel
  rw [hlen]
  rw [if_pos (by omega)]

/-- C10 witness: the concrete 10-game player X is eligible yet gets the
insufficient-data error with count 9. -/
theorem c10_threshold_insufficient_witness :
    eligibleB ds10 "X" = true ∧ (playerData ds10 "X").length = 9 ∧
    trainPlayerModel tSplit tLin 42 ds10 "X" =
      Except.error ("Not enough data for " ++ "X" ++ " (only " ++
        toString (9 : Nat) ++ " games).") :=
  c10_threshold_insufficient tSplit tLin 42 ds10 "X" (by decide) (by decide)
